import Mathlib

/-!
Shallow embedding of the Clickmesh chat API server (src/server.js).

The server is an Express application.  Its request pipeline for
POST /api/chat, in middleware order, is:
  1. CORS origin check on /api (missing or non-allow-listed Origin
     produces an error that the tail error middleware turns into 403);
  2. rate limiter on /api/chat (60 s fixed window, max 20 hits per client
     address, 429 beyond that);
  3. requireWidgetToken (500 if WIDGET_TOKEN is not configured, 401 if
     the X-Widget-Token header is missing or wrong);
  4. the handler itself: a second origin check (403), an OPENAI_API_KEY
     check (500), message validation via String(message || "").trim()
     (400 on empty or > 2000 chars), prompt assembly
     (system prompt :: history.slice(-12) ++ [user turn]), the provider
     call, and on success the store mutation
     sessions.set(sid, [...trimmedHistory, userTurn, assistantTurn]).

JavaScript-specific behaviour that matters here is modelled explicitly:
truthiness of request-body values (`message || ""`, `sessionId || uuidv4()`),
string coercion via String(), and env-var falsiness (`!process.env.X` is
true for both an unset and an empty variable).
-/

namespace ClickmeshChat

/-- Leading- and trailing-whitespace stripping on a character list. -/
def trimChars (l : List Char) : List Char :=
  ((l.dropWhile Char.isWhitespace).reverse.dropWhile Char.isWhitespace).reverse

/-- JavaScript `s.trim()` (whitespace stripped from both ends). -/
def jsTrim (s : String) : String := ⟨trimChars s.data⟩

/-- Split a character list at commas (`s.split(",")`). -/
def splitCommaAux (cur : List Char) : List Char → List (List Char)
  | [] => [cur.reverse]
  | c :: rest =>
      if c = ',' then cur.reverse :: splitCommaAux [] rest
      else splitCommaAux (c :: cur) rest

/-- `s.split(",")` as a list of strings. -/
def splitComma (s : String) : List String :=
  (splitCommaAux [] s.data).map fun l => ⟨l⟩

/-- List membership test on strings (`Set.has`). -/
def containsStr : List String → String → Bool
  | [], _ => false
  | s :: rest, t => if s = t then true else containsStr rest t

/-- A chat turn: `{role, content}` objects as used in the sessions map and
in the message list sent to the provider. -/
structure Turn where
  role : String
  content : String
deriving DecidableEq

/-- The subset of JavaScript values a JSON request-body field can hold
(objects/arrays are omitted: no claim needs them). `undefined` stands for
an absent field (and for an absent body, via `req.body || {}`). -/
inductive JSValue where
  | undefined
  | null
  | bool (b : Bool)
  | num (n : Int)
  | str (s : String)
deriving DecidableEq

/-- JavaScript truthiness of a `JSValue`. -/
def JSValue.truthy : JSValue → Bool
  | .undefined => false
  | .null => false
  | .bool b => b
  | .num n => decide (n ≠ 0)
  | .str s => decide (s ≠ "")

/-- JavaScript `String(v)` coercion. -/
def JSValue.toStr : JSValue → String
  | .undefined => "undefined"
  | .null => "null"
  | .bool b => if b then "true" else "false"
  | .num n => toString n
  | .str s => s

/-- The in-RAM sessions map (`const sessions = new Map()`), keyed by the
raw `sid` value (a JS `Map` uses SameValueZero key equality). -/
abbrev Sessions := List (JSValue × List Turn)

/-- `sessions.get(k)`. -/
def sessionsGet : Sessions → JSValue → Option (List Turn)
  | [], _ => none
  | (k', v) :: rest, k => if k' = k then some v else sessionsGet rest k

/-- `sessions.set(k, v)`: overwrite the existing entry or insert a new one. -/
def sessionsSet : Sessions → JSValue → List Turn → Sessions
  | [], k, v => [(k, v)]
  | (k', v') :: rest, k, v =>
      if k' = k then (k, v) :: rest else (k', v') :: sessionsSet rest k v

/-- One client address's rate-limit record: the end of its current fixed
window and the number of hits counted in that window. -/
structure RateEntry where
  resetAt : Nat
  hits : Nat
deriving DecidableEq

/-- The rate limiter's per-client store, keyed by client address. -/
abbrev Limiter := List (String × RateEntry)

/-- Look up a client address in the limiter store. -/
def limGet : Limiter → String → Option RateEntry
  | [], _ => none
  | (k', v) :: rest, k => if k' = k then some v else limGet rest k

/-- Overwrite or insert a client address's rate-limit record. -/
def limSet : Limiter → String → RateEntry → Limiter
  | [], k, v => [(k, v)]
  | (k', v') :: rest, k, v =>
      if k' = k then (k, v) :: rest else (k', v') :: limSet rest k v

/-- `windowMs: 60 * 1000` from the chatLimiter configuration. -/
def windowMs : Nat := 60000

/-- `max: 20` from the chatLimiter configuration. -/
def maxHits : Nat := 20

/-- One rate-limiter decision (express-rate-limit fixed window): a client's
first request, or its first request after its window expired, opens a fresh
window with one hit; otherwise the hit count is incremented and the request
passes iff the count stays within `maxHits`. -/
def rateCheck (m : Limiter) (ip : String) (now : Nat) : Bool × Limiter :=
  match limGet m ip with
  | none => (true, limSet m ip ⟨now + windowMs, 1⟩)
  | some e =>
      if e.resetAt ≤ now then
        (true, limSet m ip ⟨now + windowMs, 1⟩)
      else
        (decide (e.hits + 1 ≤ maxHits), limSet m ip ⟨e.resetAt, e.hits + 1⟩)

/-- Environment configuration. Each variable is `none` when unset;
an empty string is a set-but-falsy value (JS `!process.env.X`). -/
structure Config where
  widgetToken : Option String
  openaiKey : Option String
  allowedOriginsEnv : Option String
deriving DecidableEq

/-- JS truthiness of an environment variable (`process.env.X` is a string
or `undefined`; the empty string is falsy). -/
def envTruthy : Option String → Bool
  | none => false
  | some s => decide (s ≠ "")

/-- The hardcoded fallback allow-list (`defaultAllowed`). -/
def defaultAllowed : List String :=
  ["https://automatizacionesbilbao.es", "https://www.automatizacionesbilbao.es"]

/-- `(process.env.ALLOWED_ORIGINS || "").split(",").map(trim).filter(Boolean)`. -/
def allowedFromEnv (env : Option String) : List String :=
  ((splitComma (env.getD "")).map jsTrim).filter (fun s => s ≠ "")

/-- `allowedOrigins`: the env-derived list when nonempty, else the default. -/
def allowedOrigins (env : Option String) : List String :=
  let l := allowedFromEnv env
  if l.isEmpty then defaultAllowed else l

/-- `isAllowedOrigin(origin)`: `origin && allowedOrigins.has(origin)`.
`origin` is `none` when the header is absent. -/
def isAllowedOrigin (env : Option String) (origin : Option String) : Bool :=
  match origin with
  | none => false
  | some o => decide (o ≠ "") && containsStr (allowedOrigins env) o

/-- The CORS middleware's origin callback: a missing (or falsy) Origin is
an error, an allow-listed one is admitted, anything else is an error.
Both error branches are turned into a 403 by the tail error middleware. -/
def corsOriginOk (env : Option String) (origin : Option String) : Bool :=
  match origin with
  | none => false
  | some o => isAllowedOrigin env (some o)

/-- The fixed system-instruction text (`systemPrompt()`), abbreviated to its
first line: its content is configuration, not logic, and no claim depends
on the exact text. -/
def systemPrompt : String :=
  "Eres el asistente de la web de Clickmesh (automatización y soluciones digitales)."

/-- The fallback reply used when the provider returns no usable content. -/
def fallbackReply : String := "No he podido responder ahora mismo."

/-- The generic retry message of the catch-all 500 branch. -/
def genericErrorReply : String :=
  "Ha ocurrido un error. Inténtalo de nuevo en unos segundos."

/-- Outcome of the `client.chat.completions.create` call: a thrown error,
or a response whose first choice's message content is `content` (`none`
models an absent/null content). -/
inductive ProviderOutcome where
  | failure
  | success (content : Option String)
deriving DecidableEq

/-- `completion.choices?.[0]?.message?.content?.trim() || fallback`. -/
def normalizeReply : Option String → String
  | none => fallbackReply
  | some c => if jsTrim c = "" then fallbackReply else jsTrim c

/-- An inbound POST /api/chat request, after framework parsing. -/
structure ChatRequest where
  origin : Option String
  widgetToken : Option String
  message : JSValue
  sessionId : JSValue
deriving DecidableEq

/-- The response sent to the client: HTTP status, the `reply` field, and
the `sessionId` field (present only on the success path). -/
structure ChatResponse where
  status : Nat
  reply : String
  sessionId : Option JSValue
deriving DecidableEq

/-- The server's mutable state: the sessions map and the rate limiter. -/
structure ServerState where
  sessions : Sessions
  limiter : Limiter
deriving DecidableEq

/-- Result of processing one request.  `providerCalled`, `messagesSent` and
`sessionUsed` are observation fields recording whether the completion
provider was invoked, with which message list, and under which session
identifier the handler operated. -/
structure StepResult where
  response : ChatResponse
  state : ServerState
  providerCalled : Bool
  messagesSent : Option (List Turn)
  sessionUsed : Option JSValue
deriving DecidableEq

/-- Outcome of `requireWidgetToken`. -/
inductive TokenCheck where
  | misconfigured
  | unauthorized
  | ok
deriving DecidableEq

/-- `requireWidgetToken`: 500 when `WIDGET_TOKEN` is unset or falsy, 401
when the `x-widget-token` header is absent, falsy, or different from the
expected value; otherwise pass. -/
def requireWidgetToken (expected provided : Option String) : TokenCheck :=
  if envTruthy expected = false then .misconfigured
  else
    match provided with
    | none => .unauthorized
    | some p =>
        if p ≠ "" ∧ some p = expected then .ok else .unauthorized

/-- `history.slice(-12)`: the at most 12 most recent turns. -/
def sliceLast12 (l : List Turn) : List Turn := l.drop (l.length - 12)

/-- `String(message || "").trim()`. -/
def coercedText (message : JSValue) : String :=
  jsTrim (if message.truthy then message else .str "").toStr

/-- The route stack of POST /api/chat after CORS and the rate limiter:
`requireWidgetToken` followed by the handler body. Takes the fresh
identifier `uuidv4()` would produce as the argument `freshId`, and the
provider-call outcome as the argument `provider`. -/
def routeChat (cfg : Config) (freshId : String) (req : ChatRequest)
    (provider : ProviderOutcome) (sessions : Sessions) :
    ChatResponse × Sessions × Bool × Option (List Turn) × Option JSValue :=
  match requireWidgetToken cfg.widgetToken req.widgetToken with
  | .misconfigured =>
      (⟨500, "Falta configurar WIDGET_TOKEN en el servidor.", none⟩,
       sessions, false, none, none)
  | .unauthorized =>
      (⟨401, "No autorizado.", none⟩, sessions, false, none, none)
  | .ok =>
      if isAllowedOrigin cfg.allowedOriginsEnv req.origin = false then
        (⟨403, "Origen no permitido.", none⟩, sessions, false, none, none)
      else if envTruthy cfg.openaiKey = false then
        (⟨500, "Falta configurar OPENAI_API_KEY en el servidor.", none⟩,
         sessions, false, none, none)
      else
        let text := coercedText req.message
        if text = "" then
          (⟨400, "Escribe un mensaje para poder ayudarte.", none⟩,
           sessions, false, none, none)
        else if text.length > 2000 then
          (⟨400, "El mensaje es demasiado largo. Resúmelo un poco, por favor.", none⟩,
           sessions, false, none, none)
        else
          let sid := if req.sessionId.truthy then req.sessionId else .str freshId
          let history := (sessionsGet sessions sid).getD []
          let trimmedHistory := sliceLast12 history
          let messages :=
            ⟨"system", systemPrompt⟩ :: trimmedHistory ++ [⟨"user", text⟩]
          match provider with
          | .failure =>
              (⟨500, genericErrorReply, none⟩, sessions, true, some messages, some sid)
          | .success content =>
              let reply := normalizeReply content
              let stored := trimmedHistory ++ [⟨"user", text⟩, ⟨"assistant", reply⟩]
              (⟨200, reply, some sid⟩, sessionsSet sessions sid stored,
               true, some messages, some sid)

/-- One POST /api/chat request through the full middleware chain:
CORS origin check, then the rate limiter, then the route stack.
`now` is the arrival time in milliseconds and `ip` the client address. -/
def serverStep (cfg : Config) (freshId : String) (now : Nat) (ip : String)
    (req : ChatRequest) (provider : ProviderOutcome) (st : ServerState) :
    StepResult :=
  if corsOriginOk cfg.allowedOriginsEnv req.origin = false then
    ⟨⟨403, "Origen no permitido.", none⟩, st, false, none, none⟩
  else
    let rc := rateCheck st.limiter ip now
    if rc.1 = false then
      ⟨⟨429, "Too many requests, please try again later.", none⟩,
       ⟨st.sessions, rc.2⟩, false, none, none⟩
    else
      let h := routeChat cfg freshId req provider st.sessions
      ⟨h.1, ⟨h.2.1, rc.2⟩, h.2.2.1, h.2.2.2.1, h.2.2.2.2⟩

/-! Concrete fixtures used by counterexamples and witnesses. -/

/-- A fully configured environment. -/
def okConfig : Config := ⟨some "tok", some "key", none⟩

/-- An environment with `WIDGET_TOKEN` unset. -/
def noTokenConfig : Config := ⟨none, some "key", none⟩

/-- A well-formed request: allow-listed origin, correct token, nonempty
message, client-supplied session identifier. -/
def okRequest : ChatRequest :=
  ⟨some "https://automatizacionesbilbao.es", some "tok", .str "hola", .str "s"⟩

/-- The empty server state (fresh process). -/
def initialState : ServerState := ⟨[], []⟩

/-- `n` successive well-formed requests for session "s", all succeeding. -/
def iterOkSteps : Nat → ServerState → ServerState
  | 0, st => st
  | n + 1, st =>
      iterOkSteps n
        (serverStep okConfig "f" 0 "1.2.3.4" okRequest (.success (some "ok")) st).state

/-! Helper lemmas about the store and the window. -/

theorem sessionsGet_set_self (m : Sessions) (k : JSValue) (v : List Turn) :
    sessionsGet (sessionsSet m k v) k = some v := by
  induction m with
  | nil => simp [sessionsSet, sessionsGet]
  | cons p rest ih =>
      obtain ⟨k', v'⟩ := p
      by_cases h : k' = k
      · simp [sessionsSet, sessionsGet, h]
      · simp [sessionsSet, sessionsGet, h, ih]

theorem mem_sessionsSet (m : Sessions) (k : JSValue) (v : List Turn)
    (p : JSValue × List Turn) (hp : p ∈ sessionsSet m k v) :
    p = (k, v) ∨ p ∈ m := by
  induction m with
  | nil => simpa [sessionsSet] using hp
  | cons q rest ih =>
      obtain ⟨k', v'⟩ := q
      by_cases h : k' = k
      · simp only [sessionsSet, if_pos h, List.mem_cons] at hp
        rcases hp with hp | hp
        · exact Or.inl hp
        · exact Or.inr (List.mem_cons_of_mem _ hp)
      · simp only [sessionsSet, if_neg h, List.mem_cons] at hp
        rcases hp with hp | hp
        · exact Or.inr (by simp [hp])
        · rcases ih hp with h1 | h1
          · exact Or.inl h1
          · exact Or.inr (List.mem_cons_of_mem _ h1)

theorem sliceLast12_length (l : List Turn) :
    (sliceLast12 l).length = min l.length 12 := by
  simp only [sliceLast12, List.length_drop]
  omega

/-- On the success path (response carries a `sessionId`), `routeChat` stores
the trimmed prior history plus the two new turns, answers 200 with the
normalized reply, and uses the truthy client identifier or the fresh one. -/
theorem routeChat_success (cfg : Config) (freshId : String) (req : ChatRequest)
    (content : Option String) (sessions : Sessions) (sid : JSValue)
    (hsid : (routeChat cfg freshId req (.success content) sessions).1.sessionId
              = some sid) :
    (routeChat cfg freshId req (.success content) sessions).2.1
      = sessionsSet sessions sid
          (sliceLast12 ((sessionsGet sessions sid).getD []) ++
            [⟨"user", coercedText req.message⟩,
             ⟨"assistant", normalizeReply content⟩]) ∧
    (routeChat cfg freshId req (.success content) sessions).1.status = 200 ∧
    (routeChat cfg freshId req (.success content) sessions).1.reply
      = normalizeReply content ∧
    sid = (if req.sessionId.truthy then req.sessionId else .str freshId) := by
  cases htok : requireWidgetToken cfg.widgetToken req.widgetToken with
  | misconfigured => simp [routeChat, htok] at hsid
  | unauthorized => simp [routeChat, htok] at hsid
  | ok =>
      by_cases ho : isAllowedOrigin cfg.allowedOriginsEnv req.origin = false
      · simp [routeChat, htok, ho] at hsid
      · by_cases hk : envTruthy cfg.openaiKey = false
        · simp [routeChat, htok, ho, hk] at hsid
        · by_cases he : coercedText req.message = ""
          · simp [routeChat, htok, ho, hk, he] at hsid
          · by_cases hl : (coercedText req.message).length > 2000
            · simp [routeChat, htok, ho, hk, he, hl] at hsid
            · simp only [routeChat, htok, if_neg ho, if_neg hk, if_neg he,
                if_neg hl, Option.some.injEq] at hsid ⊢
              subst hsid
              and_intros <;> first | rfl | trivial

/-- A response that carries a `sessionId` was produced by the route stack
(not by the CORS or rate-limit rejections), so the full step agrees with
`routeChat` on the response and the resulting sessions map. -/
theorem serverStep_toRoute (cfg : Config) (freshId : String) (now : Nat)
    (ip : String) (req : ChatRequest) (provider : ProviderOutcome)
    (st : ServerState) (sid : JSValue)
    (hsid : (serverStep cfg freshId now ip req provider st).response.sessionId
              = some sid) :
    (serverStep cfg freshId now ip req provider st).response
      = (routeChat cfg freshId req provider st.sessions).1 ∧
    (serverStep cfg freshId now ip req provider st).state.sessions
      = (routeChat cfg freshId req provider st.sessions).2.1 := by
  by_cases hc : corsOriginOk cfg.allowedOriginsEnv req.origin = false
  · simp [serverStep, hc] at hsid
  · by_cases hr : (rateCheck st.limiter ip now).1 = false
    · simp [serverStep, hc, hr] at hsid
    · simp only [serverStep, if_neg hc, if_neg hr]
      and_intros <;> first | rfl | trivial

/-- `routeChat` either leaves the sessions map untouched (any rejection, or
a provider failure) or overwrites one session with its trimmed prior
history plus the new user and assistant turns (the only write path). -/
theorem routeChat_sessions_cases (cfg : Config) (freshId : String)
    (req : ChatRequest) (provider : ProviderOutcome) (sessions : Sessions) :
    (routeChat cfg freshId req provider sessions).2.1 = sessions ∨
    ∃ sid text reply,
      (routeChat cfg freshId req provider sessions).2.1
        = sessionsSet sessions sid
            (sliceLast12 ((sessionsGet sessions sid).getD []) ++
              [⟨"user", text⟩, ⟨"assistant", reply⟩]) := by
  unfold routeChat
  dsimp only
  split
  · exact Or.inl rfl
  · exact Or.inl rfl
  · repeat' split
    all_goals first
      | exact Or.inl rfl
      | exact Or.inr ⟨_, _, _, rfl⟩

/-- One step either leaves the sessions map untouched (CORS or rate-limit
rejection) or hands it to the route stack. -/
theorem serverStep_sessions_cases (cfg : Config) (freshId : String)
    (now : Nat) (ip : String) (req : ChatRequest) (provider : ProviderOutcome)
    (st : ServerState) :
    (serverStep cfg freshId now ip req provider st).state.sessions
        = st.sessions ∨
    (serverStep cfg freshId now ip req provider st).state.sessions
        = (routeChat cfg freshId req provider st.sessions).2.1 := by
  by_cases hc : corsOriginOk cfg.allowedOriginsEnv req.origin = false
  · left; simp [serverStep, hc]
  · by_cases hr : (rateCheck st.limiter ip now).1 = false
    · left; simp [serverStep, hc, hr]
    · right; simp [serverStep, hc, hr]

/-- Every history in the map has even length (user/assistant pairs). -/
def EvenHistories (m : Sessions) : Prop := ∀ p ∈ m, Even p.2.length

/-- Every history in the map has at most 14 turns. -/
def BoundedHistories (m : Sessions) : Prop := ∀ p ∈ m, p.2.length ≤ 14

theorem sessionsGet_mem (m : Sessions) (k : JSValue) (v : List Turn)
    (h : sessionsGet m k = some v) : (k, v) ∈ m := by
  induction m with
  | nil => simp [sessionsGet] at h
  | cons p rest ih =>
      obtain ⟨k', v'⟩ := p
      by_cases hk : k' = k
      · subst hk
        simp only [sessionsGet, if_true, eq_self_iff_true] at h
        simp only [Option.some.injEq] at h
        subst h
        exact List.mem_cons_self _ _
      · simp only [sessionsGet, if_neg hk] at h
        exact List.mem_cons_of_mem _ (ih h)

theorem even_getD_history (m : Sessions) (k : JSValue) (h : EvenHistories m) :
    Even ((sessionsGet m k).getD []).length := by
  cases hg : sessionsGet m k with
  | none => simp
  | some v => simpa using h (k, v) (sessionsGet_mem m k v hg)

theorem sliceLast12_even (l : List Turn) (h : Even l.length) :
    Even (sliceLast12 l).length := by
  rw [Nat.even_iff] at h ⊢
  have := sliceLast12_length l
  omega

/-- The even-length invariant is preserved by every step. -/
theorem evenHistories_step (cfg : Config) (freshId : String) (now : Nat)
    (ip : String) (req : ChatRequest) (provider : ProviderOutcome)
    (st : ServerState) (h : EvenHistories st.sessions) :
    EvenHistories (serverStep cfg freshId now ip req provider st).state.sessions := by
  rcases serverStep_sessions_cases cfg freshId now ip req provider st with hs | hs
  · rw [hs]; exact h
  · rw [hs]
    rcases routeChat_sessions_cases cfg freshId req provider st.sessions with hr | hr
    · rw [hr]; exact h
    · obtain ⟨sid, text, reply, hr⟩ := hr
      rw [hr]
      intro p hp
      rcases mem_sessionsSet _ _ _ _ hp with hp | hp
      · subst hp
        simp only [List.length_append, List.length_cons, List.length_nil]
        have := sliceLast12_even _ (even_getD_history st.sessions sid h)
        rw [Nat.even_iff] at this ⊢
        omega
      · exact h p hp

/-- The 14-turn bound is preserved by every step (the new history is at
most 12 prior turns plus the two new ones). -/
theorem boundedHistories_step (cfg : Config) (freshId : String) (now : Nat)
    (ip : String) (req : ChatRequest) (provider : ProviderOutcome)
    (st : ServerState) (h : BoundedHistories st.sessions) :
    BoundedHistories (serverStep cfg freshId now ip req provider st).state.sessions := by
  rcases serverStep_sessions_cases cfg freshId now ip req provider st with hs | hs
  · rw [hs]; exact h
  · rw [hs]
    rcases routeChat_sessions_cases cfg freshId req provider st.sessions with hr | hr
    · rw [hr]; exact h
    · obtain ⟨sid, text, reply, hr⟩ := hr
      rw [hr]
      intro p hp
      rcases mem_sessionsSet _ _ _ _ hp with hp | hp
      · subst hp
        have := sliceLast12_length ((sessionsGet st.sessions sid).getD [])
        simp only [List.length_append, List.length_cons, List.length_nil]
        omega
      · exact h p hp

/-- States reachable from a fresh process by processing requests. -/
inductive Reachable : ServerState → Prop where
  | init : Reachable initialState
  | step (cfg : Config) (freshId : String) (now : Nat) (ip : String)
      (req : ChatRequest) (provider : ProviderOutcome) (st : ServerState) :
      Reachable st → Reachable (serverStep cfg freshId now ip req provider st).state

theorem reachable_evenHistories (st : ServerState) (h : Reachable st) :
    EvenHistories st.sessions := by
  induction h with
  | init => intro p hp; simp [initialState] at hp
  | step cfg freshId now ip req provider st _ ih =>
      exact evenHistories_step cfg freshId now ip req provider st ih

theorem reachable_boundedHistories (st : ServerState) (h : Reachable st) :
    BoundedHistories st.sessions := by
  induction h with
  | init => intro p hp; simp [initialState] at hp
  | step cfg freshId now ip req provider st _ ih =>
      exact boundedHistories_step cfg freshId now ip req provider st ih

/-- C1 counterexample: starting from an empty store, after the seventh
successful request for session "s" the stored history holds 14 turns, so
the claimed 12-turn bound on the stored history is false: the handler
trims the prior history to 12 turns and then appends two more, rather
than appending first and trimming to 12 before storing. -/
theorem c1_counterexample_stored_history_reaches_14 :
    ((sessionsGet (iterOkSteps 7 initialState).sessions (.str "s")).getD []).length = 14 ∧
    ¬ ((sessionsGet (iterOkSteps 7 initialState).sessions (.str "s")).getD []).length ≤ 12 := by
  decide

/-- C1 (amended): after a successful request, the store mutation trims the
session's prior history to its 12 most recent turns and then appends the
new user turn and the new assistant turn, storing the result
(insert-or-overwrite); hence every stored history in a reachable state has
at most 14 turns after any request completes. -/
theorem c1_store_trims_then_appends_two (cfg : Config) (freshId : String)
    (now : Nat) (ip : String) (req : ChatRequest) (content : Option String)
    (st : ServerState) (sid : JSValue) (hreach : Reachable st)
    (hsid : (serverStep cfg freshId now ip req (.success content) st).response.sessionId
              = some sid) :
    sessionsGet (serverStep cfg freshId now ip req (.success content) st).state.sessions sid
      = some (sliceLast12 ((sessionsGet st.sessions sid).getD []) ++
          [⟨"user", coercedText req.message⟩,
           ⟨"assistant",
             (serverStep cfg freshId now ip req (.success content) st).response.reply⟩]) ∧
    ∀ p ∈ (serverStep cfg freshId now ip req (.success content) st).state.sessions,
      p.2.length ≤ 14 := by
  obtain ⟨hresp, hsess⟩ :=
    serverStep_toRoute cfg freshId now ip req (.success content) st sid hsid
  have hroute : (routeChat cfg freshId req (.success content) st.sessions).1.sessionId
      = some sid := by rw [← hresp]; exact hsid
  obtain ⟨hset, _, hreply, _⟩ :=
    routeChat_success cfg freshId req content st.sessions sid hroute
  constructor
  · rw [hresp, hreply, hsess, hset, sessionsGet_set_self]
  · exact boundedHistories_step cfg freshId now ip req (.success content) st
      (reachable_boundedHistories st hreach)

/-- C1 witness: a concrete successful request from the empty state; the
stored history is the two new turns and every history is within 14. -/
theorem c1_store_trims_then_appends_two_witness :
    (serverStep okConfig "f" 0 "ip" okRequest (.success (some "ok")) initialState).response.sessionId
        = some (.str "s") ∧
    (sessionsGet (serverStep okConfig "f" 0 "ip" okRequest (.success (some "ok")) initialState).state.sessions (.str "s")
        = some (sliceLast12 ((sessionsGet initialState.sessions (.str "s")).getD []) ++
            [⟨"user", coercedText okRequest.message⟩,
             ⟨"assistant",
               (serverStep okConfig "f" 0 "ip" okRequest (.success (some "ok")) initialState).response.reply⟩]) ∧
      ∀ p ∈ (serverStep okConfig "f" 0 "ip" okRequest (.success (some "ok")) initialState).state.sessions,
        p.2.length ≤ 14) :=
  ⟨by decide,
   c1_store_trims_then_appends_two okConfig "f" 0 "ip" okRequest (some "ok")
     initialState (.str "s") Reachable.init (by decide)⟩

/-- C9: after every successful request in a reachable state, the stored
history for the responded session has even length of at most 14 and its
last two entries are the new user turn followed by the new assistant turn
(the assistant turn carrying the response's reply). -/
theorem c9_success_history_even_bounded_ends_with_new_turns (cfg : Config)
    (freshId : String) (now : Nat) (ip : String) (req : ChatRequest)
    (content : Option String) (st : ServerState) (sid : JSValue)
    (hreach : Reachable st)
    (hsid : (serverStep cfg freshId now ip req (.success content) st).response.sessionId
              = some sid) :
    Even ((sessionsGet (serverStep cfg freshId now ip req (.success content) st).state.sessions sid).getD []).length ∧
    ((sessionsGet (serverStep cfg freshId now ip req (.success content) st).state.sessions sid).getD []).length ≤ 14 ∧
    ((sessionsGet (serverStep cfg freshId now ip req (.success content) st).state.sessions sid).getD []).drop
        (((sessionsGet (serverStep cfg freshId now ip req (.success content) st).state.sessions sid).getD []).length - 2)
      = [⟨"user", coercedText req.message⟩,
         ⟨"assistant",
           (serverStep cfg freshId now ip req (.success content) st).response.reply⟩] := by
  obtain ⟨hresp, hsess⟩ :=
    serverStep_toRoute cfg freshId now ip req (.success content) st sid hsid
  have hroute : (routeChat cfg freshId req (.success content) st.sessions).1.sessionId
      = some sid := by rw [← hresp]; exact hsid
  obtain ⟨hset, _, hreply, _⟩ :=
    routeChat_success cfg freshId req content st.sessions sid hroute
  have hstored :
      (sessionsGet (serverStep cfg freshId now ip req (.success content) st).state.sessions sid).getD []
        = sliceLast12 ((sessionsGet st.sessions sid).getD []) ++
            [⟨"user", coercedText req.message⟩, ⟨"assistant", normalizeReply content⟩] := by
    rw [hsess, hset, sessionsGet_set_self]
    rfl
  have heven : Even (sliceLast12 ((sessionsGet st.sessions sid).getD [])).length :=
    sliceLast12_even _ (even_getD_history st.sessions sid
      (reachable_evenHistories st hreach))
  have hlen := sliceLast12_length ((sessionsGet st.sessions sid).getD [])
  refine ⟨?_, ?_, ?_⟩
  · rw [hstored]
    simp only [List.length_append, List.length_cons, List.length_nil]
    rw [Nat.even_iff] at heven ⊢
    omega
  · rw [hstored]
    simp only [List.length_append, List.length_cons, List.length_nil]
    omega
  · rw [hstored, hresp, hreply]
    have harith :
        (sliceLast12 ((sessionsGet st.sessions sid).getD []) ++
            [(⟨"user", coercedText req.message⟩ : Turn),
             ⟨"assistant", normalizeReply content⟩]).length - 2
          = (sliceLast12 ((sessionsGet st.sessions sid).getD [])).length := by
      simp only [List.length_append, List.length_cons, List.length_nil]
      omega
    rw [harith, List.drop_left]

/-- C9 witness: the concrete successful request of the C1 witness scenario,
starting from the reachable empty state. -/
theorem c9_success_history_even_bounded_ends_with_new_turns_witness :
    (serverStep okConfig "g" 0 "ip" okRequest (.success (some "ok")) initialState).response.sessionId
        = some (.str "s") ∧
    (Even ((sessionsGet (serverStep okConfig "g" 0 "ip" okRequest (.success (some "ok")) initialState).state.sessions (.str "s")).getD []).length ∧
     ((sessionsGet (serverStep okConfig "g" 0 "ip" okRequest (.success (some "ok")) initialState).state.sessions (.str "s")).getD []).length ≤ 14 ∧
     ((sessionsGet (serverStep okConfig "g" 0 "ip" okRequest (.success (some "ok")) initialState).state.sessions (.str "s")).getD []).drop
         (((sessionsGet (serverStep okConfig "g" 0 "ip" okRequest (.success (some "ok")) initialState).state.sessions (.str "s")).getD []).length - 2)
       = [⟨"user", coercedText okRequest.message⟩,
          ⟨"assistant",
            (serverStep okConfig "g" 0 "ip" okRequest (.success (some "ok")) initialState).response.reply⟩]) :=
  ⟨by decide,
   c9_success_history_even_bounded_ends_with_new_turns okConfig "g" 0 "ip"
     okRequest (some "ok") initialState (.str "s") Reachable.init (by decide)⟩

theorem containsStr_iff (l : List String) (t : String) :
    containsStr l t = true ↔ t ∈ l := by
  induction l with
  | nil => simp [containsStr]
  | cons s rest ih =>
      by_cases h : s = t
      · subst h; simp [containsStr]
      · simp [containsStr, h, ih, Ne.symm h]

/-- A missing Origin header, or one outside the allow-list, fails the CORS
origin callback. -/
theorem corsOriginOk_eq_false (env : Option String) (origin : Option String)
    (h : origin = none ∨ ∃ o, origin = some o ∧ o ∉ allowedOrigins env) :
    corsOriginOk env origin = false := by
  rcases h with h | ⟨o, ho, hmem⟩
  · subst h; rfl
  · subst ho
    simp only [corsOriginOk, isAllowedOrigin, Bool.and_eq_false_iff]
    right
    rw [← Bool.not_eq_true, containsStr_iff]
    exact hmem

/-- C2 counterexample: with the widget secret configured, a request whose
X-Widget-Token is absent is answered 403, not 401, when its Origin header
is also absent — the CORS origin rejection fires before the token check,
so the claim's unconditional 401 is false. -/
theorem c2_counterexample_origin_rejected_before_token :
    (serverStep okConfig "f" 0 "ip" ⟨none, none, .str "hola", .str "s"⟩
        (.success (some "ok")) initialState).response.status = 403 ∧
    ¬ (serverStep okConfig "f" 0 "ip" ⟨none, none, .str "hola", .str "s"⟩
        (.success (some "ok")) initialState).response.status = 401 := by
  decide

/-- C2 (amended): every request that passes the CORS origin check and the
rate limiter, and whose X-Widget-Token is absent, falsy, or different from
the configured secret, is answered 401 "No autorizado." and the completion
provider is never invoked (and the session store is untouched). -/
theorem c2_bad_token_rejected_401_no_provider (cfg : Config) (freshId : String)
    (now : Nat) (ip : String) (req : ChatRequest) (provider : ProviderOutcome)
    (st : ServerState)
    (horig : corsOriginOk cfg.allowedOriginsEnv req.origin = true)
    (hrate : (rateCheck st.limiter ip now).1 = true)
    (htok : requireWidgetToken cfg.widgetToken req.widgetToken = .unauthorized) :
    (serverStep cfg freshId now ip req provider st).response.status = 401 ∧
    (serverStep cfg freshId now ip req provider st).response.reply = "No autorizado." ∧
    (serverStep cfg freshId now ip req provider st).providerCalled = false ∧
    (serverStep cfg freshId now ip req provider st).messagesSent = none ∧
    (serverStep cfg freshId now ip req provider st).state.sessions = st.sessions := by
  simp [serverStep, horig, hrate, routeChat, htok]

/-- C2 witness: a wrong token with an allow-listed origin from the empty
state is answered 401 without a provider call. -/
theorem c2_bad_token_rejected_401_no_provider_witness :
    corsOriginOk okConfig.allowedOriginsEnv
        (some "https://automatizacionesbilbao.es") = true ∧
    (rateCheck initialState.limiter "ip" 0).1 = true ∧
    requireWidgetToken okConfig.widgetToken (some "WRONG") = .unauthorized ∧
    ((serverStep okConfig "f" 0 "ip"
        ⟨some "https://automatizacionesbilbao.es", some "WRONG", .str "hola", .str "s"⟩
        (.success (some "ok")) initialState).response.status = 401 ∧
     (serverStep okConfig "f" 0 "ip"
        ⟨some "https://automatizacionesbilbao.es", some "WRONG", .str "hola", .str "s"⟩
        (.success (some "ok")) initialState).response.reply = "No autorizado." ∧
     (serverStep okConfig "f" 0 "ip"
        ⟨some "https://automatizacionesbilbao.es", some "WRONG", .str "hola", .str "s"⟩
        (.success (some "ok")) initialState).providerCalled = false ∧
     (serverStep okConfig "f" 0 "ip"
        ⟨some "https://automatizacionesbilbao.es", some "WRONG", .str "hola", .str "s"⟩
        (.success (some "ok")) initialState).messagesSent = none ∧
     (serverStep okConfig "f" 0 "ip"
        ⟨some "https://automatizacionesbilbao.es", some "WRONG", .str "hola", .str "s"⟩
        (.success (some "ok")) initialState).state.sessions = initialState.sessions) :=
  ⟨by decide, by decide, by decide,
   c2_bad_token_rejected_401_no_provider okConfig "f" 0 "ip"
     ⟨some "https://automatizacionesbilbao.es", some "WRONG", .str "hola", .str "s"⟩
     (.success (some "ok")) initialState (by decide) (by decide) (by decide)⟩

/-- C6 counterexample: with no widget secret configured, a request whose
Origin header is absent is answered 403, not 500 — the CORS origin
rejection fires before the misconfiguration check, so the claim's
unconditional 500 is false. -/
theorem c6_counterexample_origin_rejected_before_config_check :
    (serverStep noTokenConfig "f" 0 "ip" ⟨none, some "tok", .str "hola", .str "s"⟩
        (.success (some "ok")) initialState).response.status = 403 ∧
    ¬ (serverStep noTokenConfig "f" 0 "ip" ⟨none, some "tok", .str "hola", .str "s"⟩
        (.success (some "ok")) initialState).response.status = 500 := by
  decide

/-- C6 (amended): when no widget secret is configured (unset or empty),
every request that passes the CORS origin check and the rate limiter is
answered 500 with the explanatory misconfiguration message, regardless of
the token the client supplies, and the provider is never invoked: the
absent secret is never treated as no secret being required. -/
theorem c6_missing_secret_rejected_500 (cfg : Config) (freshId : String)
    (now : Nat) (ip : String) (req : ChatRequest) (provider : ProviderOutcome)
    (st : ServerState)
    (horig : corsOriginOk cfg.allowedOriginsEnv req.origin = true)
    (hrate : (rateCheck st.limiter ip now).1 = true)
    (hcfg : envTruthy cfg.widgetToken = false) :
    (serverStep cfg freshId now ip req provider st).response.status = 500 ∧
    (serverStep cfg freshId now ip req provider st).response.reply
      = "Falta configurar WIDGET_TOKEN en el servidor." ∧
    (serverStep cfg freshId now ip req provider st).providerCalled = false := by
  simp [serverStep, horig, hrate, routeChat, requireWidgetToken, hcfg]

/-- C6 witness: with WIDGET_TOKEN unset, a request supplying a token and an
allow-listed origin is answered 500 with the misconfiguration message. -/
theorem c6_missing_secret_rejected_500_witness :
    corsOriginOk noTokenConfig.allowedOriginsEnv
        (some "https://automatizacionesbilbao.es") = true ∧
    (rateCheck initialState.limiter "ip" 0).1 = true ∧
    envTruthy noTokenConfig.widgetToken = false ∧
    ((serverStep noTokenConfig "f" 0 "ip"
        ⟨some "https://automatizacionesbilbao.es", some "whatever", .str "hola", .str "s"⟩
        (.success (some "ok")) initialState).response.status = 500 ∧
     (serverStep noTokenConfig "f" 0 "ip"
        ⟨some "https://automatizacionesbilbao.es", some "whatever", .str "hola", .str "s"⟩
        (.success (some "ok")) initialState).response.reply
       = "Falta configurar WIDGET_TOKEN en el servidor." ∧
     (serverStep noTokenConfig "f" 0 "ip"
        ⟨some "https://automatizacionesbilbao.es", some "whatever", .str "hola", .str "s"⟩
        (.success (some "ok")) initialState).providerCalled = false) :=
  ⟨by decide, by decide, by decide,
   c6_missing_secret_rejected_500 noTokenConfig "f" 0 "ip"
     ⟨some "https://automatizacionesbilbao.es", some "whatever", .str "hola", .str "s"⟩
     (.success (some "ok")) initialState (by decide) (by decide) (by decide)⟩

/-- C7: every request whose Origin header is absent, or not a member of the
allowed-origin set, is answered 403 "Origen no permitido.", the completion
provider is never invoked, and the state is untouched (the hardened
policy: a missing Origin is itself a rejection). -/
theorem c7_bad_origin_rejected_403_no_provider (cfg : Config) (freshId : String)
    (now : Nat) (ip : String) (req : ChatRequest) (provider : ProviderOutcome)
    (st : ServerState)
    (horig : req.origin = none ∨
      ∃ o, req.origin = some o ∧ o ∉ allowedOrigins cfg.allowedOriginsEnv) :
    (serverStep cfg freshId now ip req provider st).response.status = 403 ∧
    (serverStep cfg freshId now ip req provider st).response.reply
      = "Origen no permitido." ∧
    (serverStep cfg freshId now ip req provider st).providerCalled = false ∧
    (serverStep cfg freshId now ip req provider st).messagesSent = none ∧
    (serverStep cfg freshId now ip req provider st).state = st := by
  have hc := corsOriginOk_eq_false cfg.allowedOriginsEnv req.origin horig
  simp [serverStep, hc]

/-- C7 witness: a request from a non-allow-listed origin with a valid token
is answered 403 and the provider is not called. -/
theorem c7_bad_origin_rejected_403_no_provider_witness :
    ((ChatRequest.mk (some "https://evil.example") (some "tok") (.str "hola") (.str "s")).origin
        = none ∨
      (∃ o, (ChatRequest.mk (some "https://evil.example") (some "tok") (.str "hola") (.str "s")).origin
          = some o ∧ o ∉ allowedOrigins okConfig.allowedOriginsEnv)) ∧
    ((serverStep okConfig "f" 0 "ip"
        ⟨some "https://evil.example", some "tok", .str "hola", .str "s"⟩
        (.success (some "ok")) initialState).response.status = 403 ∧
     (serverStep okConfig "f" 0 "ip"
        ⟨some "https://evil.example", some "tok", .str "hola", .str "s"⟩
        (.success (some "ok")) initialState).response.reply = "Origen no permitido." ∧
     (serverStep okConfig "f" 0 "ip"
        ⟨some "https://evil.example", some "tok", .str "hola", .str "s"⟩
        (.success (some "ok")) initialState).providerCalled = false ∧
     (serverStep okConfig "f" 0 "ip"
        ⟨some "https://evil.example", some "tok", .str "hola", .str "s"⟩
        (.success (some "ok")) initialState).messagesSent = none ∧
     (serverStep okConfig "f" 0 "ip"
        ⟨some "https://evil.example", some "tok", .str "hola", .str "s"⟩
        (.success (some "ok")) initialState).state = initialState) :=
  ⟨Or.inr ⟨"https://evil.example", rfl, by decide⟩,
   c7_bad_origin_rejected_403_no_provider okConfig "f" 0 "ip"
     ⟨some "https://evil.example", some "tok", .str "hola", .str "s"⟩
     (.success (some "ok")) initialState
     (Or.inr ⟨"https://evil.example", rfl, by decide⟩)⟩

/-- Passing the CORS origin callback implies passing the handler's second
origin check (the double layer agrees). -/
theorem corsOriginOk_isAllowed (env : Option String) (origin : Option String)
    (h : corsOriginOk env origin = true) :
    isAllowedOrigin env origin = true := by
  cases origin with
  | none => simp [corsOriginOk] at h
  | some o => exact h

/-- `String(message).trim()` on a string value is just trimming. -/
theorem coercedText_str (s : String) : coercedText (.str s) = jsTrim s := by
  by_cases h : s = ""
  · subst h; rfl
  · simp [coercedText, JSValue.truthy, JSValue.toStr, h]

theorem sliceLast12_le_twelve (l : List Turn) : (sliceLast12 l).length ≤ 12 := by
  have := sliceLast12_length l
  omega

/-- C3: for every admitted request (passing the origin check, the rate
limiter, the token check, the key check and message validation), a
provider failure yields 500 with the generic retry message, the provider
having been invoked, and the session store left exactly as before. -/
theorem c3_provider_failure_500_store_unchanged (cfg : Config)
    (freshId : String) (now : Nat) (ip : String) (req : ChatRequest)
    (st : ServerState)
    (horig : corsOriginOk cfg.allowedOriginsEnv req.origin = true)
    (hrate : (rateCheck st.limiter ip now).1 = true)
    (htok : requireWidgetToken cfg.widgetToken req.widgetToken = .ok)
    (hkey : envTruthy cfg.openaiKey = true)
    (hne : coercedText req.message ≠ "")
    (hlen : (coercedText req.message).length ≤ 2000) :
    (serverStep cfg freshId now ip req .failure st).response.status = 500 ∧
    (serverStep cfg freshId now ip req .failure st).response.reply
      = genericErrorReply ∧
    (serverStep cfg freshId now ip req .failure st).providerCalled = true ∧
    (serverStep cfg freshId now ip req .failure st).state.sessions
      = st.sessions := by
  have hall := corsOriginOk_isAllowed cfg.allowedOriginsEnv req.origin horig
  have hl : ¬ (coercedText req.message).length > 2000 := by omega
  simp [serverStep, horig, hrate, routeChat, htok, hall, hkey, hne, hl]

/-- C3 witness: a valid request whose provider call fails is answered 500
with the retry message and the store stays empty. -/
theorem c3_provider_failure_500_store_unchanged_witness :
    corsOriginOk okConfig.allowedOriginsEnv okRequest.origin = true ∧
    (rateCheck initialState.limiter "ip" 0).1 = true ∧
    requireWidgetToken okConfig.widgetToken okRequest.widgetToken = .ok ∧
    envTruthy okConfig.openaiKey = true ∧
    coercedText okRequest.message ≠ "" ∧
    (coercedText okRequest.message).length ≤ 2000 ∧
    ((serverStep okConfig "f" 0 "ip" okRequest .failure initialState).response.status = 500 ∧
     (serverStep okConfig "f" 0 "ip" okRequest .failure initialState).response.reply
       = genericErrorReply ∧
     (serverStep okConfig "f" 0 "ip" okRequest .failure initialState).providerCalled = true ∧
     (serverStep okConfig "f" 0 "ip" okRequest .failure initialState).state.sessions
       = initialState.sessions) :=
  ⟨by decide, by decide, by decide, by decide, by decide, by decide,
   c3_provider_failure_500_store_unchanged okConfig "f" 0 "ip" okRequest
     initialState (by decide) (by decide) (by decide) (by decide) (by decide)
     (by decide)⟩

/-- C4: under the other admission checks, a string message whose trimmed
form has exactly 2000 characters reaches the provider, while a trimmed
form of 2001 characters is rejected with 400 before the provider is
invoked. -/
theorem c4_trimmed_2000_admitted_2001_rejected (cfg : Config)
    (freshId : String) (now : Nat) (ip : String) (req : ChatRequest)
    (provider : ProviderOutcome) (st : ServerState) (s : String)
    (horig : corsOriginOk cfg.allowedOriginsEnv req.origin = true)
    (hrate : (rateCheck st.limiter ip now).1 = true)
    (htok : requireWidgetToken cfg.widgetToken req.widgetToken = .ok)
    (hkey : envTruthy cfg.openaiKey = true)
    (hmsg : req.message = .str s) :
    ((jsTrim s).length = 2000 →
      (serverStep cfg freshId now ip req provider st).providerCalled = true) ∧
    ((jsTrim s).length = 2001 →
      (serverStep cfg freshId now ip req provider st).response.status = 400 ∧
      (serverStep cfg freshId now ip req provider st).response.reply
        = "El mensaje es demasiado largo. Resúmelo un poco, por favor." ∧
      (serverStep cfg freshId now ip req provider st).providerCalled = false) := by
  have hall := corsOriginOk_isAllowed cfg.allowedOriginsEnv req.origin horig
  have htext : coercedText req.message = jsTrim s := by
    rw [hmsg, coercedText_str]
  constructor
  · intro h2000
    have hne : coercedText req.message ≠ "" := by
      rw [htext]
      intro hc
      rw [hc] at h2000
      simp [String.length] at h2000
    have hl : ¬ (coercedText req.message).length > 2000 := by
      rw [htext]; omega
    cases provider <;>
      simp [serverStep, horig, hrate, routeChat, htok, hall, hkey, hne, hl]
  · intro h2001
    have hne : coercedText req.message ≠ "" := by
      rw [htext]
      intro hc
      rw [hc] at h2001
      simp [String.length] at h2001
    have hl : (coercedText req.message).length > 2000 := by
      rw [htext]; omega
    simp [serverStep, horig, hrate, routeChat, htok, hall, hkey, hne, hl]

/-- The letter-only test messages of the C4 witness. -/
def longMsgA : String := ⟨List.replicate 2000 'a'⟩

/-- A 2001-character test message. -/
def longMsgB : String := ⟨List.replicate 2001 'a'⟩

theorem dropWhile_ws_replicate_a (k : Nat) :
    List.dropWhile Char.isWhitespace (List.replicate (k + 1) 'a')
      = List.replicate (k + 1) 'a' := by
  rw [List.replicate_succ, List.dropWhile_cons]
  simp only [show Char.isWhitespace 'a' = false from rfl, Bool.false_eq_true,
    if_false]

theorem trimChars_replicate_a (n : Nat) :
    trimChars (List.replicate n 'a') = List.replicate n 'a' := by
  cases n with
  | zero => rfl
  | succ m =>
      unfold trimChars
      rw [dropWhile_ws_replicate_a m, List.reverse_replicate,
        dropWhile_ws_replicate_a m, List.reverse_replicate]

theorem jsTrim_longMsgA_length : (jsTrim longMsgA).length = 2000 := by
  show (jsTrim ⟨List.replicate 2000 'a'⟩).length = 2000
  rw [jsTrim]
  show (String.mk (trimChars (List.replicate 2000 'a'))).length = 2000
  rw [trimChars_replicate_a]
  show (List.replicate 2000 'a').length = 2000
  exact List.length_replicate 2000 'a'

theorem jsTrim_longMsgB_length : (jsTrim longMsgB).length = 2001 := by
  show (jsTrim ⟨List.replicate 2001 'a'⟩).length = 2001
  rw [jsTrim]
  show (String.mk (trimChars (List.replicate 2001 'a'))).length = 2001
  rw [trimChars_replicate_a]
  show (List.replicate 2001 'a').length = 2001
  exact List.length_replicate 2001 'a'

/-- C4 witness: a 2000-character message reaches the provider, a
2001-character one is rejected with 400 before it. -/
theorem c4_trimmed_2000_admitted_2001_rejected_witness :
    (jsTrim longMsgA).length = 2000 ∧
    (serverStep okConfig "f" 0 "ip"
        ⟨some "https://automatizacionesbilbao.es", some "tok", .str longMsgA, .str "s"⟩
        (.success (some "ok")) initialState).providerCalled = true ∧
    (jsTrim longMsgB).length = 2001 ∧
    ((serverStep okConfig "f" 0 "ip"
        ⟨some "https://automatizacionesbilbao.es", some "tok", .str longMsgB, .str "s"⟩
        (.success (some "ok")) initialState).response.status = 400 ∧
     (serverStep okConfig "f" 0 "ip"
        ⟨some "https://automatizacionesbilbao.es", some "tok", .str longMsgB, .str "s"⟩
        (.success (some "ok")) initialState).response.reply
       = "El mensaje es demasiado largo. Resúmelo un poco, por favor." ∧
     (serverStep okConfig "f" 0 "ip"
        ⟨some "https://automatizacionesbilbao.es", some "tok", .str longMsgB, .str "s"⟩
        (.success (some "ok")) initialState).providerCalled = false) :=
  ⟨jsTrim_longMsgA_length,
   (c4_trimmed_2000_admitted_2001_rejected okConfig "f" 0 "ip"
      ⟨some "https://automatizacionesbilbao.es", some "tok", .str longMsgA, .str "s"⟩
      (.success (some "ok")) initialState longMsgA (by decide) (by decide)
      (by decide) (by decide) rfl).1 jsTrim_longMsgA_length,
   jsTrim_longMsgB_length,
   (c4_trimmed_2000_admitted_2001_rejected okConfig "f" 0 "ip"
      ⟨some "https://automatizacionesbilbao.es", some "tok", .str longMsgB, .str "s"⟩
      (.success (some "ok")) initialState longMsgB (by decide) (by decide)
      (by decide) (by decide) rfl).2 jsTrim_longMsgB_length⟩

/-- C5 counterexample: a client-supplied sessionId that is present but
falsy — the empty string — is not used; the handler uses the freshly
generated identifier instead (`sessionId || uuidv4()`), so the claim's
"the client-supplied one when present" is false. -/
theorem c5_counterexample_empty_present_sessionId_not_used :
    (serverStep okConfig "fresh-1" 0 "ip"
        ⟨some "https://automatizacionesbilbao.es", some "tok", .str "hola", .str ""⟩
        (.success (some "ok")) initialState).sessionUsed = some (.str "fresh-1") ∧
    ¬ (serverStep okConfig "fresh-1" 0 "ip"
        ⟨some "https://automatizacionesbilbao.es", some "tok", .str "hola", .str ""⟩
        (.success (some "ok")) initialState).sessionUsed = some (.str "") := by
  decide

/-- C5 (amended): for every admitted request the session identifier used is
the client-supplied one when present and truthy, and the freshly generated
identifier when absent or falsy (empty string, null, false, 0); the message
list sent to the provider is exactly one fixed system-instruction message,
then the at most 12 most recent stored turns for that session, then the
new user turn, in that order; and assembly mutates nothing: on a provider
failure the store is exactly the pre-request store. -/
theorem c5_sid_selection_and_prompt_assembly (cfg : Config) (freshId : String)
    (now : Nat) (ip : String) (req : ChatRequest) (provider : ProviderOutcome)
    (st : ServerState)
    (horig : corsOriginOk cfg.allowedOriginsEnv req.origin = true)
    (hrate : (rateCheck st.limiter ip now).1 = true)
    (htok : requireWidgetToken cfg.widgetToken req.widgetToken = .ok)
    (hkey : envTruthy cfg.openaiKey = true)
    (hne : coercedText req.message ≠ "")
    (hlen : (coercedText req.message).length ≤ 2000) :
    (serverStep cfg freshId now ip req provider st).sessionUsed
      = some (if req.sessionId.truthy then req.sessionId else .str freshId) ∧
    (serverStep cfg freshId now ip req provider st).messagesSent
      = some (⟨"system", systemPrompt⟩ ::
          sliceLast12 ((sessionsGet st.sessions
            (if req.sessionId.truthy then req.sessionId else .str freshId)).getD []) ++
          [⟨"user", coercedText req.message⟩]) ∧
    (sliceLast12 ((sessionsGet st.sessions
        (if req.sessionId.truthy then req.sessionId else .str freshId)).getD [])).length
      ≤ 12 ∧
    (provider = .failure →
      (serverStep cfg freshId now ip req provider st).state.sessions
        = st.sessions) := by
  have hall := corsOriginOk_isAllowed cfg.allowedOriginsEnv req.origin horig
  have hl : ¬ (coercedText req.message).length > 2000 := by omega
  refine ⟨?_, ?_, sliceLast12_le_twelve _, ?_⟩
  · cases provider <;>
      simp [serverStep, horig, hrate, routeChat, htok, hall, hkey, hne, hl]
  · cases provider <;>
      simp [serverStep, horig, hrate, routeChat, htok, hall, hkey, hne, hl]
  · intro hp
    subst hp
    simp [serverStep, horig, hrate, routeChat, htok, hall, hkey, hne, hl]

/-- C5 witness: a request without a truthy sessionId (absent field) uses
the fresh identifier and sends system prompt, no history, new user turn. -/
theorem c5_sid_selection_and_prompt_assembly_witness :
    corsOriginOk okConfig.allowedOriginsEnv
        (some "https://automatizacionesbilbao.es") = true ∧
    (rateCheck initialState.limiter "ip" 0).1 = true ∧
    requireWidgetToken okConfig.widgetToken (some "tok") = .ok ∧
    envTruthy okConfig.openaiKey = true ∧
    coercedText (JSValue.str "hola") ≠ "" ∧
    (coercedText (JSValue.str "hola")).length ≤ 2000 ∧
    ((serverStep okConfig "fresh-1" 0 "ip"
        ⟨some "https://automatizacionesbilbao.es", some "tok", .str "hola", .undefined⟩
        (.success (some "ok")) initialState).sessionUsed
      = some (if (JSValue.undefined).truthy then JSValue.undefined else .str "fresh-1") ∧
     (serverStep okConfig "fresh-1" 0 "ip"
        ⟨some "https://automatizacionesbilbao.es", some "tok", .str "hola", .undefined⟩
        (.success (some "ok")) initialState).messagesSent
      = some (⟨"system", systemPrompt⟩ ::
          sliceLast12 ((sessionsGet initialState.sessions
            (if (JSValue.undefined).truthy then JSValue.undefined else .str "fresh-1")).getD []) ++
          [⟨"user", coercedText (JSValue.str "hola")⟩]) ∧
     (sliceLast12 ((sessionsGet initialState.sessions
        (if (JSValue.undefined).truthy then JSValue.undefined else .str "fresh-1")).getD [])).length
      ≤ 12 ∧
     ((ProviderOutcome.success (some "ok")) = .failure →
      (serverStep okConfig "fresh-1" 0 "ip"
        ⟨some "https://automatizacionesbilbao.es", some "tok", .str "hola", .undefined⟩
        (.success (some "ok")) initialState).state.sessions
        = initialState.sessions)) :=
  ⟨by decide, by decide, by decide, by decide, by decide, by decide,
   c5_sid_selection_and_prompt_assembly okConfig "fresh-1" 0 "ip"
     ⟨some "https://automatizacionesbilbao.es", some "tok", .str "hola", .undefined⟩
     (.success (some "ok")) initialState (by decide) (by decide) (by decide)
     (by decide) (by decide) (by decide)⟩

/-- C10: the message field is validated through its JavaScript string
coercion, not its JSON type: a message that is absent, null, false, 0, or
a whitespace-only string is rejected 400 as an empty message, while any
truthy value — string or not — is admitted to the provider whenever its
coerced, trimmed string form is non-empty and at most 2000 characters. -/
theorem c10_message_validated_by_string_coercion (cfg : Config)
    (freshId : String) (now : Nat) (ip : String) (req : ChatRequest)
    (provider : ProviderOutcome) (st : ServerState)
    (horig : corsOriginOk cfg.allowedOriginsEnv req.origin = true)
    (hrate : (rateCheck st.limiter ip now).1 = true)
    (htok : requireWidgetToken cfg.widgetToken req.widgetToken = .ok)
    (hkey : envTruthy cfg.openaiKey = true) :
    ((req.message = .undefined ∨ req.message = .null ∨
      req.message = .bool false ∨ req.message = .num 0 ∨
      (∃ s, req.message = .str s ∧ jsTrim s = "")) →
      (serverStep cfg freshId now ip req provider st).response.status = 400 ∧
      (serverStep cfg freshId now ip req provider st).response.reply
        = "Escribe un mensaje para poder ayudarte." ∧
      (serverStep cfg freshId now ip req provider st).providerCalled = false) ∧
    ((req.message.truthy = true ∧ jsTrim req.message.toStr ≠ "" ∧
      (jsTrim req.message.toStr).length ≤ 2000) →
      (serverStep cfg freshId now ip req provider st).providerCalled = true) := by
  have hall := corsOriginOk_isAllowed cfg.allowedOriginsEnv req.origin horig
  constructor
  · intro hbad
    have he : coercedText req.message = "" := by
      rcases hbad with h | h | h | h | ⟨s, hs, ht⟩
      · rw [h]; rfl
      · rw [h]; rfl
      · rw [h]; rfl
      · rw [h]; rfl
      · rw [hs, coercedText_str, ht]
    simp [serverStep, horig, hrate, routeChat, htok, hall, hkey, he]
  · intro ⟨htr, hne, hlen⟩
    have he : coercedText req.message = jsTrim req.message.toStr := by
      simp [coercedText, htr]
    have hne' : coercedText req.message ≠ "" := by rw [he]; exact hne
    have hl : ¬ (coercedText req.message).length > 2000 := by rw [he]; omega
    cases provider <;>
      simp [serverStep, horig, hrate, routeChat, htok, hall, hkey, hne', hl]

/-- C10 witness: a null message under otherwise-valid admission data is
rejected 400 as empty, without a provider call. -/
theorem c10_message_validated_by_string_coercion_witness :
    corsOriginOk okConfig.allowedOriginsEnv
        (some "https://automatizacionesbilbao.es") = true ∧
    (rateCheck initialState.limiter "ip" 0).1 = true ∧
    requireWidgetToken okConfig.widgetToken (some "tok") = .ok ∧
    envTruthy okConfig.openaiKey = true ∧
    ((serverStep okConfig "f" 0 "ip"
        ⟨some "https://automatizacionesbilbao.es", some "tok", .null, .str "s"⟩
        (.success (some "ok")) initialState).response.status = 400 ∧
     (serverStep okConfig "f" 0 "ip"
        ⟨some "https://automatizacionesbilbao.es", some "tok", .null, .str "s"⟩
        (.success (some "ok")) initialState).response.reply
       = "Escribe un mensaje para poder ayudarte." ∧
     (serverStep okConfig "f" 0 "ip"
        ⟨some "https://automatizacionesbilbao.es", some "tok", .null, .str "s"⟩
        (.success (some "ok")) initialState).providerCalled = false) :=
  ⟨by decide, by decide, by decide, by decide,
   (c10_message_validated_by_string_coercion okConfig "f" 0 "ip"
      ⟨some "https://automatizacionesbilbao.es", some "tok", .null, .str "s"⟩
      (.success (some "ok")) initialState (by decide) (by decide) (by decide)
      (by decide)).1 (Or.inr (Or.inl rfl))⟩

/-! Infrastructure for the rate-limit claim: processing a sequence of
requests from one client address. -/

/-- Placeholder used by positional access into a response list. -/
def defaultResponse : ChatResponse := ⟨0, "", none⟩

/-- Process one request per arrival time, threading the server state. -/
def runChats (cfg : Config) (freshId : String) (ip : String)
    (req : ChatRequest) (provider : ProviderOutcome) :
    List Nat → ServerState → List ChatResponse × ServerState
  | [], st => ([], st)
  | t :: ts, st =>
      let r := serverStep cfg freshId t ip req provider st
      let rest := runChats cfg freshId ip req provider ts r.state
      (r.response :: rest.1, rest.2)

theorem limGet_set_self (m : Limiter) (k : String) (v : RateEntry) :
    limGet (limSet m k v) k = some v := by
  induction m with
  | nil => simp [limSet, limGet]
  | cons p rest ih =>
      obtain ⟨k', v'⟩ := p
      by_cases h : k' = k
      · simp [limSet, limGet, h]
      · simp [limSet, limGet, h, ih]

/-- The route stack never answers 429: that status comes only from the
rate limiter. -/
theorem routeChat_status_ne_429 (cfg : Config) (freshId : String)
    (req : ChatRequest) (provider : ProviderOutcome) (sessions : Sessions) :
    (routeChat cfg freshId req provider sessions).1.status ≠ 429 := by
  unfold routeChat
  dsimp only
  split
  · simp
  · simp
  · repeat' split
    all_goals simp

/-- When the origin passes and the limiter admits, the step answers with
the route stack's response and commits the limiter update. -/
theorem serverStep_rate_pass (cfg : Config) (freshId : String) (now : Nat)
    (ip : String) (req : ChatRequest) (provider : ProviderOutcome)
    (st : ServerState)
    (horig : corsOriginOk cfg.allowedOriginsEnv req.origin = true)
    (hr : (rateCheck st.limiter ip now).1 = true) :
    (serverStep cfg freshId now ip req provider st).response
      = (routeChat cfg freshId req provider st.sessions).1 ∧
    (serverStep cfg freshId now ip req provider st).state.limiter
      = (rateCheck st.limiter ip now).2 := by
  simp [serverStep, horig, hr]

/-- When the origin passes but the limiter rejects, the step answers 429
and still commits the limiter update. -/
theorem serverStep_rate_fail (cfg : Config) (freshId : String) (now : Nat)
    (ip : String) (req : ChatRequest) (provider : ProviderOutcome)
    (st : ServerState)
    (horig : corsOriginOk cfg.allowedOriginsEnv req.origin = true)
    (hr : (rateCheck st.limiter ip now).1 = false) :
    (serverStep cfg freshId now ip req provider st).response.status = 429 ∧
    (serverStep cfg freshId now ip req provider st).state.limiter
      = (rateCheck st.limiter ip now).2 := by
  simp [serverStep, horig, hr]

/-- Within one open window (all arrivals before its reset time), the hit
counter advances by one per request, exactly the requests that push the
counter beyond 20 are answered 429, and the number of admitted requests is
the window budget that was still available. -/
theorem runChats_window (cfg : Config) (freshId : String) (ip : String)
    (req : ChatRequest) (provider : ProviderOutcome)
    (horig : corsOriginOk cfg.allowedOriginsEnv req.origin = true)
    (R : Nat) (ts : List Nat) :
    ∀ (st : ServerState) (k : Nat),
      (∀ t ∈ ts, t < R) →
      limGet st.limiter ip = some ⟨R, k⟩ →
      limGet (runChats cfg freshId ip req provider ts st).2.limiter ip
          = some ⟨R, k + ts.length⟩ ∧
      (∀ i, i < ts.length →
        (((runChats cfg freshId ip req provider ts st).1.getD i defaultResponse).status = 429
          ↔ 20 < k + i + 1)) ∧
      ((runChats cfg freshId ip req provider ts st).1.filter
          (fun r => r.status != 429)).length = min (k + ts.length) 20 - min k 20 := by
  induction ts with
  | nil =>
      intro st k hts hk
      refine ⟨by simpa [runChats] using hk, ?_, ?_⟩
      · intro i hi
        exact absurd hi (by simp)
      · simp [runChats]
  | cons t ts ih =>
      intro st k hts hk
      have htR : t < R := hts t (List.mem_cons_self _ _)
      have hts' : ∀ x ∈ ts, x < R := fun x hx => hts x (List.mem_cons_of_mem _ hx)
      have hrc : rateCheck st.limiter ip t
          = (decide (k + 1 ≤ maxHits), limSet st.limiter ip ⟨R, k + 1⟩) := by
        simp only [rateCheck, hk]
        rw [if_neg (by omega)]
      by_cases hok : k + 1 ≤ 20
      · have hr1 : (rateCheck st.limiter ip t).1 = true := by
          rw [hrc]
          simpa [maxHits] using hok
        obtain ⟨hresp, hlim⟩ :=
          serverStep_rate_pass cfg freshId t ip req provider st horig hr1
        have hentry :
            limGet (serverStep cfg freshId t ip req provider st).state.limiter ip
              = some ⟨R, k + 1⟩ := by
          rw [hlim, hrc]
          exact limGet_set_self _ _ _
        obtain ⟨ihA, ihB, ihC⟩ :=
          ih (serverStep cfg freshId t ip req provider st).state (k + 1) hts' hentry
        refine ⟨?_, ?_, ?_⟩
        · simp only [runChats, List.length_cons]
          rw [show k + (ts.length + 1) = k + 1 + ts.length by omega]
          exact ihA
        · intro i hi
          cases i with
          | zero =>
              simp only [runChats, List.getD_cons_zero]
              rw [hresp]
              constructor
              · intro hcon
                exact absurd hcon
                  (routeChat_status_ne_429 cfg freshId req provider st.sessions)
              · intro hcon
                omega
          | succ j =>
              simp only [runChats, List.getD_cons_succ]
              simp only [List.length_cons] at hi
              have hj : j < ts.length := by omega
              rw [show k + (j + 1) + 1 = k + 1 + j + 1 by omega]
              exact ihB j hj
        · simp only [runChats, List.filter_cons]
          rw [hresp]
          have hb : ((routeChat cfg freshId req provider st.sessions).1.status != 429)
              = true := by
            simpa [bne_iff_ne] using
              routeChat_status_ne_429 cfg freshId req provider st.sessions
          rw [hb]
          simp only [if_true, List.length_cons]
          rw [ihC]
          omega
      · have hr1 : (rateCheck st.limiter ip t).1 = false := by
          rw [hrc]
          simpa [maxHits] using hok
        obtain ⟨hstat, hlim⟩ :=
          serverStep_rate_fail cfg freshId t ip req provider st horig hr1
        have hentry :
            limGet (serverStep cfg freshId t ip req provider st).state.limiter ip
              = some ⟨R, k + 1⟩ := by
          rw [hlim, hrc]
          exact limGet_set_self _ _ _
        obtain ⟨ihA, ihB, ihC⟩ :=
          ih (serverStep cfg freshId t ip req provider st).state (k + 1) hts' hentry
        refine ⟨?_, ?_, ?_⟩
        · simp only [runChats, List.length_cons]
          rw [show k + (ts.length + 1) = k + 1 + ts.length by omega]
          exact ihA
        · intro i hi
          cases i with
          | zero =>
              simp only [runChats, List.getD_cons_zero]
              exact ⟨fun _ => by omega, fun _ => hstat⟩
          | succ j =>
              simp only [runChats, List.getD_cons_succ]
              simp only [List.length_cons] at hi
              have hj : j < ts.length := by omega
              rw [show k + (j + 1) + 1 = k + 1 + j + 1 by omega]
              exact ihB j hj
        · simp only [runChats, List.filter_cons]
          have hb : ((serverStep cfg freshId t ip req provider st).response.status != 429)
              = false := by
            simp [hstat]
          rw [hb]
          simp only [Bool.false_eq_true, if_false]
          rw [ihC]
          omega

/-- C8: for one client address with no prior record, among a first request
at time t0 and any further requests inside the same 60-second window, at
most 20 are admitted (exactly min(n, 20) of n), every request from the
21st on is answered 429, and a request arriving once the window has reset
is not rate-limited again (its status is decided by the other checks). -/
theorem c8_at_most_20_per_window_21st_429_reset_readmits (cfg : Config)
    (freshId : String) (ip : String) (req : ChatRequest)
    (provider : ProviderOutcome) (st : ServerState) (t0 : Nat) (ts : List Nat)
    (horig : corsOriginOk cfg.allowedOriginsEnv req.origin = true)
    (hfresh : limGet st.limiter ip = none)
    (hts : ∀ t ∈ ts, t < t0 + windowMs) :
    ((runChats cfg freshId ip req provider (t0 :: ts) st).1.filter
        (fun r => r.status != 429)).length = min (ts.length + 1) 20 ∧
    (∀ i, i < ts.length + 1 → 20 ≤ i →
      ((runChats cfg freshId ip req provider (t0 :: ts) st).1.getD i defaultResponse).status
        = 429) ∧
    (∀ t2, t0 + windowMs ≤ t2 →
      (serverStep cfg freshId t2 ip req provider
          (runChats cfg freshId ip req provider (t0 :: ts) st).2).response.status
        ≠ 429) := by
  have hrc : rateCheck st.limiter ip t0
      = (true, limSet st.limiter ip ⟨t0 + windowMs, 1⟩) := by
    simp [rateCheck, hfresh]
  have hr1 : (rateCheck st.limiter ip t0).1 = true := by rw [hrc]
  obtain ⟨hresp, hlim⟩ :=
    serverStep_rate_pass cfg freshId t0 ip req provider st horig hr1
  have hentry :
      limGet (serverStep cfg freshId t0 ip req provider st).state.limiter ip
        = some ⟨t0 + windowMs, 1⟩ := by
    rw [hlim, hrc]
    exact limGet_set_self _ _ _
  obtain ⟨wA, wB, wC⟩ :=
    runChats_window cfg freshId ip req provider horig (t0 + windowMs) ts
      (serverStep cfg freshId t0 ip req provider st).state 1 hts hentry
  refine ⟨?_, ?_, ?_⟩
  · simp only [runChats, List.filter_cons]
    rw [hresp]
    have hb : ((routeChat cfg freshId req provider st.sessions).1.status != 429)
        = true := by
      simpa [bne_iff_ne] using
        routeChat_status_ne_429 cfg freshId req provider st.sessions
    rw [hb]
    simp only [if_true, List.length_cons]
    rw [wC]
    omega
  · intro i hi h20
    cases i with
    | zero => omega
    | succ j =>
        simp only [runChats, List.getD_cons_succ]
        have hj : j < ts.length := by omega
        exact (wB j hj).mpr (by omega)
  · intro t2 ht2
    have hfin :
        limGet (runChats cfg freshId ip req provider (t0 :: ts) st).2.limiter ip
          = some ⟨t0 + windowMs, 1 + ts.length⟩ := by
      simp only [runChats]
      exact wA
    have hrc2 :
        (rateCheck (runChats cfg freshId ip req provider (t0 :: ts) st).2.limiter ip t2).1
          = true := by
      simp [rateCheck, hfin, ht2]
    obtain ⟨hresp2, _⟩ :=
      serverStep_rate_pass cfg freshId t2 ip req provider
        (runChats cfg freshId ip req provider (t0 :: ts) st).2 horig hrc2
    rw [hresp2]
    exact routeChat_status_ne_429 cfg freshId req provider _

/-- C8 witness: 22 requests at once from one address — 20 admitted, the
21st and 22nd answered 429 — and a request at the window's reset time is
no longer rate-limited. -/
theorem c8_at_most_20_per_window_21st_429_reset_readmits_witness :
    corsOriginOk okConfig.allowedOriginsEnv okRequest.origin = true ∧
    limGet initialState.limiter "ip" = none ∧
    (∀ t ∈ List.replicate 21 5, t < 0 + windowMs) ∧
    (((runChats okConfig "f" "ip" okRequest (.success (some "ok"))
          (0 :: List.replicate 21 5) initialState).1.filter
        (fun r => r.status != 429)).length = min ((List.replicate 21 5).length + 1) 20 ∧
     (∀ i, i < (List.replicate 21 5).length + 1 → 20 ≤ i →
       ((runChats okConfig "f" "ip" okRequest (.success (some "ok"))
            (0 :: List.replicate 21 5) initialState).1.getD i defaultResponse).status
         = 429) ∧
     (∀ t2, 0 + windowMs ≤ t2 →
       (serverStep okConfig "f" t2 "ip" okRequest (.success (some "ok"))
           (runChats okConfig "f" "ip" okRequest (.success (some "ok"))
             (0 :: List.replicate 21 5) initialState).2).response.status
         ≠ 429)) :=
  ⟨by decide, by decide, by decide,
   c8_at_most_20_per_window_21st_429_reset_readmits okConfig "f" "ip" okRequest
     (.success (some "ok")) initialState 0 (List.replicate 21 5) (by decide)
     (by decide) (by decide)⟩

end ClickmeshChat
